import Mathlib

/-!
Shallow embedding of `src/main.py` of the sync_status_indicators agent:
a reconciliation loop that fetches remote sync state, filters it against a
local checkpoint file, dispatches per-path status-indicator applications,
and persists a new checkpoint.

Time is modelled as an integer count of microseconds (the resolution of
Python `datetime`).  Python exceptions are modelled with `Except`; a value
of `Except.error e` escaping a function models an exception that the
function does not catch.  Observable side effects (HTTP requests, log
calls, state-file reads/writes/deletions, indicator applications) are
collected in a trace.
-/

/-- Python exception classes relevant to the program.  `valueError` and
`jsonDecodeError` are kept distinct even though Python's
`json.JSONDecodeError` is a subclass of `ValueError`: in
`load_last_synced` both are caught and lead to the same state, so the
distinction is only in which handler logs. -/
inductive PyExc where
  | typeError
  | valueError
  | keyError
  | attributeError
  | fileNotFoundError
  | permissionError
  | jsonDecodeError
  | httpRequestError
  | httpStatusError
  | ioError
deriving DecidableEq

/-- JSON values, as produced by `json.load` / `response.json()`.
`null` corresponds to Python `None`. -/
inductive Json where
  | str (s : String)
  | num (n : Int)
  | bool (b : Bool)
  | null
  | arr (elems : List Json)
  | obj (fields : List (String × Json))

/-- Content of a file as seen through `json.load`: either text that parses
to a JSON value, or text that raises `json.JSONDecodeError`. -/
inductive StateFileContent where
  | ok (j : Json)
  | malformed

/-- State of the checkpoint file (`state.json`).  `unreadable` models a
file that exists but cannot be opened (e.g. a permission error). -/
inductive FileState where
  | absent
  | unreadable
  | present (c : StateFileContent)

/-- The `SyncStatus` enumeration of `src/main.py` (note the member
`ERRORED` has value "error"). -/
inductive SyncStatus where
  | queued
  | errored
  | synced
  | ignored
deriving DecidableEq

/-- The `color_code` property of `SyncStatus` (Finder label indices). -/
def SyncStatus.color_code : SyncStatus → Nat
  | .queued => 1
  | .errored => 2
  | .synced => 6
  | .ignored => 7

/-- Kinds of log messages the program emits. -/
inductive LogKind where
  | fetchFailed
  | stateMissing
  | stateCorrupt
  | saveFailed
  | itemSkipped
  | indicatorFailed
deriving DecidableEq

/-- Observable side effects of a run. -/
inductive Effect where
  | httpGet
  | logged (k : LogKind)
  | stateRead
  | stateUnlinked
  | indicatorApplied (path : String) (status : SyncStatus)
  | stateWritten (t : Int)
deriving DecidableEq

/- ### Timestamp serialization

The source serializes checkpoints with `datetime.isoformat` and parses
them with `datetime.fromisoformat`.  Python stdlib internals are
out-of-scope plumbing (spec section 1), so the ISO-8601 rendering of a
timestamp is modelled from the spec as an injective executable codec: the
decimal rendering of the microsecond count stands in for the ISO string.
`parseIso` accepts exactly the canonical outputs of `isoformat` and
rejects everything else (mirroring `fromisoformat` raising `ValueError`
on a string it cannot parse). -/

/-- The character for decimal digit `d`. -/
def digitChar (d : Nat) : Char := Char.ofNat (48 + d)

/-- Little-endian decimal digits of `n`, with explicit fuel so that the
definition is structural and computes by `rfl`. -/
def natDigitsRevAux : Nat → Nat → List Char
  | 0, _ => []
  | fuel + 1, n =>
    if n = 0 then [] else digitChar (n % 10) :: natDigitsRevAux fuel (n / 10)

/-- Little-endian decimal digits of `n` (empty for 0). -/
def natDigitsRev (n : Nat) : List Char := natDigitsRevAux n n

/-- Reads little-endian decimal digits back into a number (total; garbage
in, garbage out — validation happens in `parseIso`). -/
def readDigitsRev : List Char → Nat
  | [] => 0
  | c :: cs => (c.toNat - 48) + 10 * readDigitsRev cs

/-- Best-effort read of a signed decimal string (total). -/
def readIntRaw (cs : List Char) : Int :=
  if cs.head? = some '-' then -((readDigitsRev (cs.drop 1).reverse : Nat) : Int)
  else ((readDigitsRev cs.reverse : Nat) : Int)

/-- Modelled from the spec: `datetime.isoformat`, the ISO-8601 rendering
of a timestamp (stdlib internals out of scope); an injective decimal
rendering of the microsecond count stands in for the ISO string. -/
def isoformat (t : Int) : String :=
  if t < 0 then String.mk ('-' :: (natDigitsRev t.natAbs).reverse)
  else if t = 0 then "0"
  else String.mk ((natDigitsRev t.natAbs).reverse)

/-- Modelled from the spec: successful string parsing inside
`datetime.fromisoformat`; accepts exactly the canonical outputs of
`isoformat`. -/
def parseIso (s : String) : Option Int :=
  let t := readIntRaw s.data
  if isoformat t = s then some t else none

/-- Argument passed to `datetime.fromisoformat` at its call sites:
either a Python value obtained from JSON data (possibly `None`), or an
already-parsed `datetime` object. -/
inductive IsoArg where
  | ofJson (v : Option Json)
  | ofDatetime (t : Int)

/-- Python `datetime.fromisoformat`: parses a `str` (raising `ValueError`
on an unparsable one) and raises `TypeError` on any non-`str` argument —
including `None` and `datetime` objects. -/
def datetime_fromisoformat : IsoArg → Except PyExc Int
  | .ofJson (some (.str s)) =>
    match parseIso s with
    | some t => .ok t
    | none => .error .valueError
  | .ofJson _ => .error .typeError
  | .ofDatetime _ => .error .typeError

/- ### Python-semantics helpers -/

/-- Field lookup in a JSON object (keys are unique in every object this
program handles). -/
def lookupField : List (String × Json) → String → Option Json
  | [], _ => none
  | (k, v) :: rest, key => if k = key then some v else lookupField rest key

/-- Python `data.get(key)`: `None` when the key is absent; raises
`AttributeError` when `data` is not a dict. -/
def dataGet (j : Json) (key : String) : Except PyExc (Option Json) :=
  match j with
  | .obj kvs => .ok (lookupField kvs key)
  | _ => .error .attributeError

/-- Python `item[key]` for a string key: `KeyError` when the key is
missing from a dict, `TypeError` when `item` is not a dict. -/
def pyGetItem (j : Json) (key : String) : Except PyExc Json :=
  match j with
  | .obj kvs =>
    match lookupField kvs key with
    | some v => .ok v
    | none => .error .keyError
  | _ => .error .typeError

/-- Python iteration (`for i in x`) over a JSON-derived value: lists give
their elements, dicts their keys, strings their characters; numbers,
booleans and `None` raise `TypeError`. -/
def pyIter : Json → Except PyExc (List Json)
  | .arr xs => .ok xs
  | .obj kvs => .ok (kvs.map fun kv => Json.str kv.1)
  | .str s => .ok (s.data.map fun c => Json.str (String.mk [c]))
  | _ => .error .typeError

/-- Python truthiness of a JSON-derived value (`if not sync_state`). -/
def pyTruthy : Json → Bool
  | .arr xs => !xs.isEmpty
  | .obj kvs => !kvs.isEmpty
  | .str s => !s.data.isEmpty
  | .num n => n != 0
  | .bool b => b
  | .null => false

/-- Modelled from the spec: the path-resolution collaborator
(`client.datasites / item["path"]`), joining a backend-reported relative
path under the configured root; `pathlib`'s `/` raises `TypeError` on a
non-string operand. -/
def path_join (root : String) (v : Json) : Except PyExc String :=
  match v with
  | .str s => .ok (root ++ "/" ++ s)
  | _ => .error .typeError

/-- Enum member lookup by value, as in `SyncStatus(value)` for a string. -/
def syncStatusOfString (s : String) : Option SyncStatus :=
  if s = "queued" then some .queued
  else if s = "error" then some .errored
  else if s = "synced" then some .synced
  else if s = "ignored" then some .ignored
  else none

/-- Python `SyncStatus(value)`: `ValueError` for a hashable value that is
not a member value, `TypeError` for an unhashable value (list/dict). -/
def syncStatusOf : Json → Except PyExc SyncStatus
  | .str s =>
    match syncStatusOfString s with
    | some st => .ok st
    | none => .error .valueError
  | .arr _ => .error .typeError
  | .obj _ => .error .typeError
  | _ => .error .valueError

/- ### The source functions -/

/-- Outcome of `process_item` for one record: either the indicator was
invoked (with the subprocess result), or the record was skipped by a
caught validation error. -/
inductive ItemOutcome where
  | applied (path : String) (status : SyncStatus) (ok : Bool)
  | skipped (e : PyExc)
deriving DecidableEq

/-- Observable effects of one `process_item` outcome: the indicator call
(plus an error log when the subprocess failed), or the validation-skip
log line. -/
def ItemOutcome.effects : ItemOutcome → List Effect
  | .applied p st ok =>
    Effect.indicatorApplied p st :: (if ok then [] else [Effect.logged LogKind.indicatorFailed])
  | .skipped _ => [Effect.logged LogKind.itemSkipped]

/-- Result of the `httpx.get` call: a transport failure
(`httpx.RequestError`) or a response with a status code and a body. -/
inductive HttpResult where
  | requestError
  | response (status : Nat) (body : StateFileContent)

/-- httpx success statuses (2xx); `raise_for_status` raises
`HTTPStatusError` for everything else. -/
def is_success (status : Nat) : Bool := 200 ≤ status && status < 300

/-- Body of the `try` block of `fetch_sync_state`: issue the request,
`raise_for_status`, then `response.json()`. -/
def fetch_sync_state_body (h : HttpResult) : Except PyExc Json :=
  match h with
  | .requestError => .error .httpRequestError
  | .response s body =>
    if is_success s then
      match body with
      | .ok j => .ok j
      | .malformed => .error .jsonDecodeError
    else .error .httpStatusError

/-- `fetch_sync_state` of `src/main.py`: catches `httpx.RequestError` and
`httpx.HTTPStatusError` (logging each) and falls through to `return []`;
any other exception (e.g. a JSON decode error from `response.json()`)
escapes. -/
def fetch_sync_state (h : HttpResult) : Except PyExc (Json × List Effect) :=
  match fetch_sync_state_body h with
  | .ok j => .ok (j, [Effect.httpGet])
  | .error .httpRequestError => .ok (Json.arr [], [Effect.httpGet, Effect.logged LogKind.fetchFailed])
  | .error .httpStatusError => .ok (Json.arr [], [Effect.httpGet, Effect.logged LogKind.fetchFailed])
  | .error e => .error e

/-- Opening and `json.load`-ing the state file. -/
def json_load (fs : FileState) : Except PyExc Json :=
  match fs with
  | .absent => .error .fileNotFoundError
  | .unreadable => .error .permissionError
  | .present .malformed => .error .jsonDecodeError
  | .present (.ok j) => .ok j

/-- Python `Path.unlink(missing_ok=True)`. -/
def unlink (_fs : FileState) : FileState := .absent

/-- Body of the `try` block of `load_last_synced`: open and parse the
file, `data.get("last_synced")`, then `datetime.fromisoformat` on the
result (which is `None` when the key is absent). -/
def load_last_synced_body (fs : FileState) : Except PyExc Int :=
  match json_load fs with
  | .error e => .error e
  | .ok data =>
    match dataGet data "last_synced" with
    | .error e => .error e
    | .ok last_synced => datetime_fromisoformat (.ofJson last_synced)

/-- `load_last_synced` of `src/main.py`: catches `FileNotFoundError`,
`ValueError` and `json.JSONDecodeError` — each handler logs, then control
falls through to `state_path.unlink(missing_ok=True)` and `return None`.
Any other exception (e.g. `TypeError` from `fromisoformat(None)`, or a
permission error from `open`) escapes.  On success the file is left in
place. -/
def load_last_synced (fs : FileState) : Except PyExc (Option Int × FileState × List Effect) :=
  match load_last_synced_body fs with
  | .ok t => .ok (some t, fs, [Effect.stateRead])
  | .error .fileNotFoundError =>
    .ok (none, unlink fs, [Effect.stateRead, Effect.logged LogKind.stateMissing, Effect.stateUnlinked])
  | .error .valueError =>
    .ok (none, unlink fs, [Effect.stateRead, Effect.logged LogKind.stateCorrupt, Effect.stateUnlinked])
  | .error .jsonDecodeError =>
    .ok (none, unlink fs, [Effect.stateRead, Effect.logged LogKind.stateCorrupt, Effect.stateUnlinked])
  | .error e => .error e

/-- `update_last_synced` of `src/main.py`: writes the JSON object with
key "last_synced" mapped to `timestamp.isoformat()`; an `IOError` is
caught and logged (`writeOk` models whether the write succeeds). -/
def update_last_synced (timestamp : Int) (writeOk : Bool) (fs : FileState) :
    FileState × List Effect :=
  if writeOk then
    (FileState.present (StateFileContent.ok (Json.obj [("last_synced", Json.str (isoformat timestamp))])),
     [Effect.stateWritten timestamp])
  else (fs, [Effect.logged LogKind.saveFailed])

/-- `apply_sync_status_indicator` of `src/main.py`: runs `osascript`; a
`subprocess.CalledProcessError` is caught and logged and the function
returns `False`.  The environment's verdict for each (path, status) pair
is the input function `osaOk`. -/
def apply_sync_status_indicator (osaOk : String → SyncStatus → Bool)
    (path : String) (status : SyncStatus) : Bool :=
  osaOk path status

/-- Body of the `try` block of `process_item`: resolve the path, validate
the status against the enumeration, and invoke the indicator. -/
def process_item_body (datasites : String) (osaOk : String → SyncStatus → Bool)
    (item : Json) : Except PyExc ItemOutcome :=
  match pyGetItem item "path" with
  | .error e => .error e
  | .ok pv =>
    match path_join datasites pv with
    | .error e => .error e
    | .ok path =>
      match pyGetItem item "status" with
      | .error e => .error e
      | .ok sv =>
        match syncStatusOf sv with
        | .error e => .error e
        | .ok status =>
          .ok (.applied path status (apply_sync_status_indicator osaOk path status))

/-- `process_item` of `src/main.py`: `KeyError` and `ValueError` are
caught and logged per record; anything else escapes (and is re-raised by
`future.result()` in `apply`). -/
def process_item (datasites : String) (osaOk : String → SyncStatus → Bool)
    (item : Json) : Except PyExc ItemOutcome :=
  match process_item_body datasites osaOk item with
  | .ok out => .ok out
  | .error .keyError => .ok (.skipped .keyError)
  | .error .valueError => .ok (.skipped .valueError)
  | .error e => .error e

/-- The thread-pool dispatch of `apply`: every record is submitted to
`process_item` and the results are joined (`future.result()` re-raising
the first uncaught per-record exception). -/
def dispatch_batch (datasites : String) (osaOk : String → SyncStatus → Bool) :
    List Json → Except PyExc (List ItemOutcome)
  | [] => .ok []
  | item :: rest =>
    match process_item datasites osaOk item with
    | .error e => .error e
    | .ok out =>
      match dispatch_batch datasites osaOk rest with
      | .error e => .error e
      | .ok outs => .ok (out :: outs)

/-- buffer = timedelta(seconds=2), in microseconds. -/
def buffer : Int := 2000000

/-- The filter condition of the list comprehension in `apply`:
keep records whose parsed timestamp is at least the checkpoint minus the
buffer. -/
def filterByTimestamp (last_synced_dt : Int) : List Json → Except PyExc (List Json)
  | [] => .ok []
  | i :: rest =>
    match pyGetItem i "timestamp" with
    | .error e => .error e
    | .ok tv =>
      match datetime_fromisoformat (.ofJson (some tv)) with
      | .error e => .error e
      | .ok t =>
        match filterByTimestamp last_synced_dt rest with
        | .error e => .error e
        | .ok tail => .ok (if last_synced_dt - buffer ≤ t then i :: tail else tail)

/-- Lines 123–128 of `apply` when a checkpoint is present:
`last_synced_dt = datetime.fromisoformat(last_synced)` — applied to a
value that is already a `datetime` — followed by the filtering
comprehension over `sync_state`. -/
def checkpoint_filter (last_synced : Int) (sync_state : Json) : Except PyExc (List Json) :=
  match datetime_fromisoformat (.ofDatetime last_synced) with
  | .error e => .error e
  | .ok last_synced_dt =>
    match pyIter sync_state with
    | .error e => .error e
    | .ok items => filterByTimestamp last_synced_dt items

/-- Wall-clock instants surrounding the single `datetime.now()` call of a
run: the instant the run starts (before `fetch_sync_state()`) and the
instant line 115 executes (after the fetch returned). -/
structure Clock where
  beforeFetch : Int
  afterFetch : Int
  mono : beforeFetch ≤ afterFetch

/-- Inputs determining one invocation of `apply`: whether another live
process holds the pid lock, the HTTP outcome, the checkpoint-file state,
the clock, whether the checkpoint write succeeds, the per-path indicator
verdicts, and the datasites root directory. -/
structure RunInput where
  lockHeld : Bool
  http : HttpResult
  fs : FileState
  clock : Clock
  writeOk : Bool
  osaOk : String → SyncStatus → Bool
  datasites : String

/-- Result of a normally-terminating run: the final checkpoint-file state
and the trace of observable side effects. -/
structure RunResult where
  fs : FileState
  trace : List Effect

/-- The `apply` function of `src/main.py` (lines 111–138).  A held pid
lock raises `PidFileError`, which the outer handler turns into a silent
no-op.  Otherwise: fetch, capture `datetime.now()` (line 115, after the
fetch), short-circuit on a falsy fetch result, load the checkpoint,
filter when a checkpoint is present (which in fact raises `TypeError`,
see `datetime_fromisoformat`), dispatch every surviving record, and save
the captured timestamp. -/
def apply (inp : RunInput) : Except PyExc RunResult :=
  if inp.lockHeld then .ok ⟨inp.fs, []⟩
  else
    match fetch_sync_state inp.http with
    | .error e => .error e
    | .ok (sync_state, tr1) =>
      let sync_state_fetch_timestamp := inp.clock.afterFetch
      if !pyTruthy sync_state then .ok ⟨inp.fs, tr1⟩
      else
        match load_last_synced inp.fs with
        | .error e => .error e
        | .ok (last_synced, fs1, tr2) =>
          match (match last_synced with
                 | some c => checkpoint_filter c sync_state
                 | none => pyIter sync_state) with
          | .error e => .error e
          | .ok items =>
            match dispatch_batch inp.datasites inp.osaOk items with
            | .error e => .error e
            | .ok outs =>
              .ok ⟨(update_last_synced sync_state_fetch_timestamp inp.writeOk fs1).1,
                   tr1 ++ tr2 ++ (outs.map ItemOutcome.effects).flatten
                     ++ (update_last_synced sync_state_fetch_timestamp inp.writeOk fs1).2⟩

/- ### Codec lemmas -/

theorem toNat_digitChar (d : Nat) (h : d < 10) : (digitChar d).toNat = 48 + d := by
  interval_cases d <;> rfl

theorem digitChar_ge (d : Nat) (h : d < 10) : 48 ≤ (digitChar d).toNat := by
  rw [toNat_digitChar d h]; omega

theorem readDigitsRev_natDigitsRevAux (fuel : Nat) :
    ∀ n, n ≤ fuel → readDigitsRev (natDigitsRevAux fuel n) = n := by
  induction fuel with
  | zero =>
    intro n hn
    have : n = 0 := Nat.le_zero.mp hn
    subst this; rfl
  | succ f ih =>
    intro n hn
    simp only [natDigitsRevAux]
    by_cases hz : n = 0
    · simp [hz, readDigitsRev]
    · rw [if_neg hz, readDigitsRev, ih (n / 10) (by omega),
        toNat_digitChar _ (Nat.mod_lt n (by omega))]
      omega

theorem readDigitsRev_natDigitsRev (n : Nat) : readDigitsRev (natDigitsRev n) = n :=
  readDigitsRev_natDigitsRevAux n n le_rfl

theorem mem_natDigitsRevAux (fuel : Nat) :
    ∀ n, ∀ c ∈ natDigitsRevAux fuel n, 48 ≤ c.toNat := by
  induction fuel with
  | zero => intro n c hc; simp [natDigitsRevAux] at hc
  | succ f ih =>
    intro n c hc
    simp only [natDigitsRevAux] at hc
    by_cases hz : n = 0
    · simp [hz] at hc
    · rw [if_neg hz] at hc
      rcases List.mem_cons.mp hc with h1 | h2
      · subst h1; exact digitChar_ge _ (Nat.mod_lt n (by omega))
      · exact ih (n / 10) c h2

theorem mem_natDigitsRev (n : Nat) : ∀ c ∈ natDigitsRev n, 48 ≤ c.toNat :=
  mem_natDigitsRevAux n n

theorem readIntRaw_isoformat (t : Int) : readIntRaw (isoformat t).data = t := by
  unfold isoformat
  by_cases hneg : t < 0
  · rw [if_pos hneg]
    show readIntRaw ('-' :: (natDigitsRev t.natAbs).reverse) = t
    unfold readIntRaw
    have hc : ('-' :: (natDigitsRev t.natAbs).reverse).head? = some '-' := rfl
    rw [if_pos hc]
    simp only [List.drop_succ_cons, List.drop_zero, List.reverse_reverse]
    rw [readDigitsRev_natDigitsRev]
    omega
  · by_cases hz : t = 0
    · subst hz; rfl
    · rw [if_neg hneg, if_neg hz]
      show readIntRaw ((natDigitsRev t.natAbs).reverse) = t
      have hd : ((natDigitsRev t.natAbs).reverse).head? ≠ some '-' := by
        intro hmem
        have hm : '-' ∈ (natDigitsRev t.natAbs).reverse := by
          cases hl : (natDigitsRev t.natAbs).reverse with
          | nil => rw [hl] at hmem; simp at hmem
          | cons a l =>
            rw [hl] at hmem
            simp only [List.head?_cons, Option.some.injEq] at hmem
            subst hmem
            exact List.mem_cons_self _ _
        have h48 := mem_natDigitsRev t.natAbs '-' (List.mem_reverse.mp hm)
        have h45 : ('-').toNat = 45 := rfl
        omega
      unfold readIntRaw
      rw [if_neg hd]
      simp only [List.reverse_reverse]
      rw [readDigitsRev_natDigitsRev]
      omega

theorem parseIso_isoformat (t : Int) : parseIso (isoformat t) = some t := by
  simp [parseIso, readIntRaw_isoformat]

/- ### Structural lemmas about traces and successful runs -/

theorem fetch_trace_cases (h : HttpResult) (j : Json) (tr : List Effect)
    (hf : fetch_sync_state h = .ok (j, tr)) :
    tr = [Effect.httpGet] ∨ tr = [Effect.httpGet, Effect.logged LogKind.fetchFailed] := by
  unfold fetch_sync_state at hf
  split at hf <;> simp_all

theorem load_trace_cases (fs : FileState) (ls : Option Int) (fs1 : FileState)
    (tr : List Effect) (hl : load_last_synced fs = .ok (ls, fs1, tr)) :
    tr = [Effect.stateRead]
      ∨ tr = [Effect.stateRead, Effect.logged LogKind.stateMissing, Effect.stateUnlinked]
      ∨ tr = [Effect.stateRead, Effect.logged LogKind.stateCorrupt, Effect.stateUnlinked] := by
  unfold load_last_synced at hl
  split at hl <;> simp_all

theorem checkpoint_filter_typeerror (c : Int) (j : Json) :
    checkpoint_filter c j = .error PyExc.typeError := rfl

theorem effects_no_write (o : ItemOutcome) (t : Int) :
    Effect.stateWritten t ∉ o.effects := by
  match o with
  | .applied p st ok =>
    simp only [ItemOutcome.effects]
    intro hmem
    rcases List.mem_cons.mp hmem with h1 | h2
    · exact absurd h1 (by simp)
    · split at h2 <;> simp_all
  | .skipped e => simp [ItemOutcome.effects]

theorem effects_no_read (o : ItemOutcome) :
    Effect.stateRead ∉ o.effects := by
  match o with
  | .applied p st ok =>
    simp only [ItemOutcome.effects]
    intro hmem
    rcases List.mem_cons.mp hmem with h1 | h2
    · exact absurd h1 (by simp)
    · split at h2 <;> simp_all
  | .skipped e => simp [ItemOutcome.effects]

/-- Inversion of a normally-terminating run: either the lock was held and
nothing happened, or the fetch came back falsy and the run stopped after
the fetch, or the full pipeline ran — in which case the loaded checkpoint
was necessarily `none` (a present checkpoint makes line 123 raise), every
fetched record was dispatched, and the post-fetch timestamp was saved. -/
theorem apply_ok_inversion (inp : RunInput) (r : RunResult) (h : apply inp = .ok r) :
    (inp.lockHeld = true ∧ r = ⟨inp.fs, []⟩)
    ∨ (∃ j tr1, inp.lockHeld = false ∧ fetch_sync_state inp.http = .ok (j, tr1) ∧
        ((pyTruthy j = false ∧ r = ⟨inp.fs, tr1⟩)
         ∨ (∃ fs1 tr2 items outs,
              pyTruthy j = true ∧
              load_last_synced inp.fs = .ok (none, fs1, tr2) ∧
              pyIter j = .ok items ∧
              dispatch_batch inp.datasites inp.osaOk items = .ok outs ∧
              r = ⟨(update_last_synced inp.clock.afterFetch inp.writeOk fs1).1,
                   tr1 ++ tr2 ++ (outs.map ItemOutcome.effects).flatten
                     ++ (update_last_synced inp.clock.afterFetch inp.writeOk fs1).2⟩))) := by
  unfold apply at h
  by_cases hl : inp.lockHeld
  · rw [if_pos hl] at h
    left
    refine ⟨hl, ?_⟩
    cases h; rfl
  · rw [if_neg hl] at h
    right
    cases hf : fetch_sync_state inp.http with
    | error e => rw [hf] at h; cases h
    | ok pr =>
      obtain ⟨j, tr1⟩ := pr
      rw [hf] at h
      dsimp only at h
      refine ⟨j, tr1, eq_false_of_ne_true hl, rfl, ?_⟩
      by_cases htr : pyTruthy j
      · simp only [htr, Bool.not_true, Bool.false_eq_true, if_false] at h
        right
        cases hload : load_last_synced inp.fs with
        | error e => rw [hload] at h; cases h
        | ok triple =>
          obtain ⟨ls, fs1, tr2⟩ := triple
          rw [hload] at h
          dsimp only at h
          cases ls with
          | some c =>
            dsimp only at h
            rw [checkpoint_filter_typeerror] at h
            cases h
          | none =>
            cases hiter : pyIter j with
            | error e => rw [hiter] at h; cases h
            | ok items =>
              rw [hiter] at h
              dsimp only at h
              cases hdisp : dispatch_batch inp.datasites inp.osaOk items with
              | error e => rw [hdisp] at h; cases h
              | ok outs =>
                rw [hdisp] at h
                dsimp only at h
                refine ⟨fs1, tr2, items, outs, htr, rfl, rfl, hdisp, ?_⟩
                cases h
                rfl
      · left
        simp only [eq_false_of_ne_true htr, Bool.not_false, if_true] at h
        exact ⟨eq_false_of_ne_true htr, by cases h; rfl⟩

/- ### Record validity and batch-dispatch lemmas -/

/-- An outcome that invoked the status indicator. -/
def isApplied : ItemOutcome → Bool
  | .applied _ _ _ => true
  | .skipped _ => false

/-- An outcome that skipped the record on a caught validation error. -/
def isSkipped : ItemOutcome → Bool
  | .applied _ _ _ => false
  | .skipped _ => true

/-- A record that passes `process_item` validation: a string "path" field
and a "status" field holding a recognized member value. -/
def validItem (item : Json) : Bool :=
  match pyGetItem item "path", pyGetItem item "status" with
  | .ok (.str _), .ok (.str sv) => (syncStatusOfString sv).isSome
  | _, _ => false

/-- A record that is invalid in one of the two ways named by the spec:
its "path" field is missing, or its status string is unrecognized. -/
def invalidItem (item : Json) : Bool :=
  match pyGetItem item "path" with
  | .error .keyError => true
  | .ok (.str _) =>
    match pyGetItem item "status" with
    | .ok (.str sv) => (syncStatusOfString sv).isNone
    | _ => false
  | _ => false

theorem process_item_eval (ds : String) (osa : String → SyncStatus → Bool)
    (item : Json) (p sv : String) (st : SyncStatus)
    (hp : pyGetItem item "path" = .ok (.str p))
    (hs : pyGetItem item "status" = .ok (.str sv))
    (hst : syncStatusOfString sv = some st) :
    process_item ds osa item
      = .ok (.applied (ds ++ "/" ++ p) st (osa (ds ++ "/" ++ p) st)) := by
  unfold process_item process_item_body
  rw [hp]
  dsimp only [path_join]
  rw [hs]
  dsimp only [syncStatusOf]
  rw [hst]
  rfl

theorem process_item_of_valid (ds : String) (osa : String → SyncStatus → Bool)
    (item : Json) (h : validItem item = true) :
    ∃ o, process_item ds osa item = .ok o ∧ isApplied o = true := by
  unfold validItem at h
  split at h
  next p sv hp hs =>
    obtain ⟨st, hst⟩ := Option.isSome_iff_exists.mp h
    exact ⟨_, process_item_eval ds osa item p sv st hp hs hst, rfl⟩
  next => cases h

theorem process_item_of_invalid (ds : String) (osa : String → SyncStatus → Bool)
    (item : Json) (h : invalidItem item = true) :
    ∃ e, process_item ds osa item = .ok (.skipped e) := by
  unfold invalidItem at h
  split at h
  next hp =>
    refine ⟨.keyError, ?_⟩
    unfold process_item process_item_body
    rw [hp]
  next p hp =>
    split at h
    next sv hs =>
      obtain hnone := Option.isNone_iff_eq_none.mp h
      refine ⟨.valueError, ?_⟩
      unfold process_item process_item_body
      rw [hp]
      dsimp only [path_join]
      rw [hs]
      dsimp only [syncStatusOf]
      rw [hnone]
    next => cases h
  next => cases h

theorem dispatch_batch_mem (ds : String) (osa : String → SyncStatus → Bool)
    (items : List Json) (outs : List ItemOutcome) (item : Json)
    (hd : dispatch_batch ds osa items = .ok outs) (hmem : item ∈ items) :
    ∃ o, o ∈ outs ∧ process_item ds osa item = .ok o := by
  induction items generalizing outs with
  | nil => simp at hmem
  | cons a l ih =>
    unfold dispatch_batch at hd
    cases hp : process_item ds osa a with
    | error e => rw [hp] at hd; cases hd
    | ok out =>
      rw [hp] at hd
      dsimp only at hd
      cases hrest : dispatch_batch ds osa l with
      | error e => rw [hrest] at hd; cases hd
      | ok outs2 =>
        rw [hrest] at hd
        dsimp only at hd
        cases hd
        rcases List.mem_cons.mp hmem with h1 | h2
        · subst h1; exact ⟨out, List.mem_cons_self _ _, hp⟩
        · obtain ⟨o, ho, hpo⟩ := ih outs2 hrest h2
          exact ⟨o, List.mem_cons_of_mem _ ho, hpo⟩

theorem dispatch_batch_all_valid (ds : String) (osa : String → SyncStatus → Bool)
    (l : List Json) (h : ∀ item ∈ l, validItem item = true) :
    ∃ outs, dispatch_batch ds osa l = .ok outs
      ∧ outs.length = l.length ∧ ∀ o ∈ outs, isApplied o = true := by
  induction l with
  | nil => exact ⟨[], rfl, rfl, by simp⟩
  | cons a l ih =>
    obtain ⟨outs, hd, hlen, hall⟩ := ih fun i hi => h i (List.mem_cons_of_mem _ hi)
    obtain ⟨o, hpo, happ⟩ := process_item_of_valid ds osa a (h a (List.mem_cons_self _ _))
    refine ⟨o :: outs, ?_, by simp [hlen], ?_⟩
    · unfold dispatch_batch
      rw [hpo]
      dsimp only
      rw [hd]
    · intro x hx
      rcases List.mem_cons.mp hx with h1 | h2
      · subst h1; exact happ
      · exact hall x h2

theorem pyIter_mem_truthy (j : Json) (items : List Json) (item : Json)
    (hiter : pyIter j = .ok items) (hmem : item ∈ items) : pyTruthy j = true := by
  cases j with
  | arr xs =>
    unfold pyIter at hiter
    cases hiter
    cases items with
    | nil => simp at hmem
    | cons a l => rfl
  | obj kvs =>
    unfold pyIter at hiter
    cases hiter
    cases kvs with
    | nil => simp at hmem
    | cons a l => rfl
  | str s =>
    unfold pyIter at hiter
    cases hiter
    show (!s.data.isEmpty) = true
    cases hdata : s.data with
    | nil => rw [hdata] at hmem; simp at hmem
    | cons a l => rfl
  | num n => cases hiter
  | bool b => cases hiter
  | null => cases hiter

theorem dispatch_batch_ok_append (ds : String) (osa : String → SyncStatus → Bool)
    (l1 l2 : List Json) (o1 o2 : List ItemOutcome)
    (h1 : dispatch_batch ds osa l1 = .ok o1)
    (h2 : dispatch_batch ds osa l2 = .ok o2) :
    dispatch_batch ds osa (l1 ++ l2) = .ok (o1 ++ o2) := by
  induction l1 generalizing o1 with
  | nil => cases h1; simpa using h2
  | cons a l ih =>
    rw [List.cons_append]
    unfold dispatch_batch at h1 ⊢
    cases hp : process_item ds osa a with
    | error e => rw [hp] at h1; cases h1
    | ok out =>
      rw [hp] at h1
      dsimp only at h1 ⊢
      cases hrest : dispatch_batch ds osa l with
      | error e => rw [hrest] at h1; cases h1
      | ok outs2 =>
        rw [hrest] at h1
        dsimp only at h1
        cases h1
        rw [ih outs2 hrest]
        rfl

theorem isSkipped_eq_false_of_applied (o : ItemOutcome) (h : isApplied o = true) :
    isSkipped o = false := by
  cases o with
  | applied p st ok => rfl
  | skipped e => cases h

/- ### Concrete run inputs used by counterexamples and witnesses -/

/-- A well-formed queued record (its timestamp string is never parsed on a
first run, so any string will do). -/
def rec1 : Json :=
  Json.obj [("path", Json.str "a"), ("status", Json.str "queued"), ("timestamp", Json.str "t")]

/-- First run: lock free, fetch returns one record, no checkpoint file. -/
def cx1 : RunInput where
  lockHeld := false
  http := HttpResult.response 200 (StateFileContent.ok (Json.arr [rec1]))
  fs := FileState.absent
  clock := ⟨0, 5, by omega⟩
  writeOk := true
  osaOk := fun _ _ => true
  datasites := "/d"

/-- The run result of `cx1`, computed by evaluation. -/
def cx1Result : RunResult where
  fs := FileState.present (StateFileContent.ok (Json.obj [("last_synced", Json.str (isoformat 5))]))
  trace := [Effect.httpGet, Effect.stateRead, Effect.logged LogKind.stateMissing,
    Effect.stateUnlinked, Effect.indicatorApplied "/d/a" SyncStatus.queued, Effect.stateWritten 5]

/-- A record timestamped exactly checkpoint − buffer (10s − 2s = 8s). -/
def rec2 : Json :=
  Json.obj [("path", Json.str "p"), ("status", Json.str "synced"),
    ("timestamp", Json.str (isoformat 8000000))]

/-- A run with a valid checkpoint (10s) present and one fetched record at
exactly checkpoint − buffer. -/
def cx2 : RunInput where
  lockHeld := false
  http := HttpResult.response 200 (StateFileContent.ok (Json.arr [rec2]))
  fs := FileState.present (StateFileContent.ok (Json.obj [("last_synced", Json.str (isoformat 10000000))]))
  clock := ⟨11000000, 12000000, by omega⟩
  writeOk := true
  osaOk := fun _ _ => true
  datasites := "/d"

/-- An errored record. -/
def rec3 : Json :=
  Json.obj [("path", Json.str "q"), ("status", Json.str "error"),
    ("timestamp", Json.str (isoformat 50))]

/-- A run with a valid checkpoint (42) present and a nonempty fetch. -/
def cx3 : RunInput where
  lockHeld := false
  http := HttpResult.response 200 (StateFileContent.ok (Json.arr [rec3]))
  fs := FileState.present (StateFileContent.ok (Json.obj [("last_synced", Json.str (isoformat 42))]))
  clock := ⟨43, 44, by omega⟩
  writeOk := true
  osaOk := fun _ _ => true
  datasites := "/d"

/-- A run whose fetch fails at the transport level. -/
def cx5 : RunInput where
  lockHeld := false
  http := HttpResult.requestError
  fs := FileState.present (StateFileContent.ok (Json.obj [("last_synced", Json.str (isoformat 9))]))
  clock := ⟨0, 3, by omega⟩
  writeOk := true
  osaOk := fun _ _ => false
  datasites := "/x"

/-- A run invoked while another live process holds the pid lock. -/
def cx7 : RunInput where
  lockHeld := true
  http := HttpResult.response 200 (StateFileContent.ok (Json.arr [rec1]))
  fs := FileState.present (StateFileContent.ok (Json.obj [("last_synced", Json.str (isoformat 9))]))
  clock := ⟨0, 2, by omega⟩
  writeOk := true
  osaOk := fun _ _ => true
  datasites := "/d"

/- ### Claim theorems -/

/-- C2: with a checkpoint present, the claimed filtering
(`timestamp >= checkpoint - 2s`) never executes — on a run whose
checkpoint file holds a valid timestamp (10s) and whose fetch returns one
record timestamped exactly checkpoint − buffer (8s), `apply` raises an
uncaught `TypeError` at line 123 (`datetime.fromisoformat(last_synced)`
applied to a value that is already a `datetime`) before the filter runs,
so the record at the buffer boundary is never dispatched. -/
theorem apply_checkpoint_present_raises_before_filter :
    apply cx2 = Except.error PyExc.typeError := rfl

/-- C3: an error is fatal to a run — with any valid checkpoint present
(here 42) and a nonempty fetch, `apply` terminates with an uncaught
`TypeError` instead of terminating normally, contradicting the claim that
every failure degrades to a logged no-op. -/
theorem apply_raises_on_existing_checkpoint :
    apply cx3 = Except.error PyExc.typeError := rfl

/-- C4: `load_last_synced` does not fail soft on a state file whose JSON
object lacks the "last_synced" key: `data.get` returns `None`,
`datetime.fromisoformat(None)` raises `TypeError`, which none of the
handlers catches — the function raises instead of returning `None`, and
the backing file is not deleted. -/
theorem load_last_synced_missing_key_typeerror :
    load_last_synced (FileState.present (StateFileContent.ok (Json.obj [])))
      = Except.error PyExc.typeError := rfl

/-- C7: while a prior invocation holds the run lock, a second invocation
of `apply` produces no side effects at all: the `PidFileError` is caught
by the silent handler, so the run performs no fetch, no checkpoint read
or write, no dispatch and no logging (empty trace), and leaves the
checkpoint file untouched. -/
theorem apply_lock_held_no_side_effects (inp : RunInput) (hl : inp.lockHeld = true) :
    apply inp = .ok ⟨inp.fs, []⟩ := by
  unfold apply
  rw [if_pos hl]

/-- Witness for C7 at the concrete locked run `cx7`. -/
theorem apply_lock_held_no_side_effects_witness :
    apply cx7 = .ok ⟨cx7.fs, []⟩ :=
  apply_lock_held_no_side_effects cx7 rfl

/-- C9: `fetch_sync_state` fails open — on a transport failure
(`httpx.RequestError`) and on every response whose status is not a
success, the call does not raise: it logs the failure and returns the
empty list. -/
theorem fetch_sync_state_fails_open (h : HttpResult)
    (hfail : h = HttpResult.requestError
      ∨ ∃ s body, h = HttpResult.response s body ∧ is_success s = false) :
    fetch_sync_state h
      = .ok (Json.arr [], [Effect.httpGet, Effect.logged LogKind.fetchFailed]) := by
  rcases hfail with rfl | ⟨s, body, rfl, hs⟩
  · rfl
  · unfold fetch_sync_state fetch_sync_state_body
    dsimp only
    rw [hs]
    rfl

/-- Witness for C9 at a transport failure. -/
theorem fetch_sync_state_fails_open_witness :
    fetch_sync_state HttpResult.requestError
      = .ok (Json.arr [], [Effect.httpGet, Effect.logged LogKind.fetchFailed]) :=
  fetch_sync_state_fails_open HttpResult.requestError (Or.inl rfl)

/-- C10: checkpoint round-trip — for every timestamp `t`, after
`update_last_synced t` writes the state file successfully, a subsequent
`load_last_synced` parses the serialized timestamp back to exactly `t`,
and leaves the file in place (it is not deleted). -/
theorem checkpoint_roundtrip (t : Int) (fs0 : FileState) :
    load_last_synced ((update_last_synced t true fs0).1)
      = .ok (some t, (update_last_synced t true fs0).1, [Effect.stateRead]) := by
  have hbody : load_last_synced_body ((update_last_synced t true fs0).1) = .ok t := by
    show datetime_fromisoformat
        (.ofJson (if ("last_synced" : String) = "last_synced"
          then some (Json.str (isoformat t)) else none)) = .ok t
    rw [if_pos rfl]
    show (match parseIso (isoformat t) with
          | some t => (Except.ok t : Except PyExc Int)
          | none => Except.error PyExc.valueError) = .ok t
    rw [parseIso_isoformat]
  unfold load_last_synced
  rw [hbody]

/-- C5: an empty fetch short-circuits the run — when the lock is free and
`fetch_sync_state` returns the empty list, `apply` returns immediately:
the checkpoint file is untouched (final state equals initial state), the
checkpoint is never read, nothing is filtered or dispatched, and the only
effects are the fetch itself and at most its failure log line. -/
theorem apply_empty_fetch_noop (inp : RunInput) (tr : List Effect)
    (hl : inp.lockHeld = false)
    (hf : fetch_sync_state inp.http = .ok (Json.arr [], tr)) :
    apply inp = .ok ⟨inp.fs, tr⟩
      ∧ ∀ e ∈ tr, e = Effect.httpGet ∨ e = Effect.logged LogKind.fetchFailed := by
  constructor
  · unfold apply
    rw [if_neg (by simp [hl]), hf]
    rfl
  · intro e he
    rcases fetch_trace_cases _ _ _ hf with rfl | rfl
    · simp only [List.mem_singleton] at he
      exact Or.inl he
    · rcases List.mem_cons.mp he with h1 | h2
      · exact Or.inl h1
      · simp only [List.mem_singleton] at h2
        exact Or.inr h2

/-- Witness for C5 at the concrete run `cx5` (transport failure, so the
fetch yields the empty list). -/
theorem apply_empty_fetch_noop_witness :
    apply cx5 = .ok ⟨cx5.fs, [Effect.httpGet, Effect.logged LogKind.fetchFailed]⟩
      ∧ ∀ e ∈ [Effect.httpGet, Effect.logged LogKind.fetchFailed],
          e = Effect.httpGet ∨ e = Effect.logged LogKind.fetchFailed :=
  apply_empty_fetch_noop cx5 [Effect.httpGet, Effect.logged LogKind.fetchFailed] rfl rfl

/-- C1 counterexample: it is not the case that the checkpoint saved by a
run that reaches the save step equals the wall-clock instant captured
before the fetch began — on the concrete run `cx1` (run starts at instant
0, the fetch returns at instant 5), the saved value is 5, not 0: line 115
executes `datetime.now()` after `fetch_sync_state()` has returned. -/
theorem apply_saved_not_prefetch_cx :
    ¬ (∀ (inp : RunInput) (r : RunResult) (t : Int),
        apply inp = .ok r → Effect.stateWritten t ∈ r.trace → t = inp.clock.beforeFetch) := by
  intro hcl
  have h5 := hcl cx1 cx1Result 5 rfl (by decide)
  exact absurd h5 (by decide)

/-- C1 (amended): the checkpoint value saved at the end of a
reconciliation run equals the `datetime.now()` captured immediately after
`fetch_sync_state()` returned (line 115) — before the empty-fetch check,
checkpoint load, filtering and dispatch — not the instant the run started
before the fetch, and not a timestamp taken after dispatch completed. -/
theorem apply_saved_eq_postfetch_now (inp : RunInput) (r : RunResult) (t : Int)
    (h : apply inp = .ok r) (ht : Effect.stateWritten t ∈ r.trace) :
    t = inp.clock.afterFetch := by
  rcases apply_ok_inversion inp r h with ⟨hl, rfl⟩ | ⟨j, tr1, hl, hf, hcase⟩
  · simp at ht
  · rcases hcase with ⟨htr, rfl⟩ | ⟨fs1, tr2, items, outs, htr, hload, hiter, hdisp, rfl⟩
    · rcases fetch_trace_cases _ _ _ hf with rfl | rfl <;> simp at ht
    · rcases List.mem_append.mp ht with h12f | h3
      · rcases List.mem_append.mp h12f with h12 | hfl
        · rcases List.mem_append.mp h12 with h1 | h2
          · rcases fetch_trace_cases _ _ _ hf with rfl | rfl <;> simp at h1
          · rcases load_trace_cases _ _ _ _ hload with rfl | rfl | rfl <;> simp at h2
        · rw [List.mem_flatten] at hfl
          obtain ⟨es, hes, hmem⟩ := hfl
          rw [List.mem_map] at hes
          obtain ⟨o, _, rfl⟩ := hes
          exact absurd hmem (effects_no_write o t)
      · by_cases hw : inp.writeOk = true
        · simp only [update_last_synced, hw, if_true] at h3
          simp only [List.mem_singleton, Effect.stateWritten.injEq] at h3
          exact h3
        · simp only [update_last_synced, hw, Bool.false_eq_true, if_false] at h3
          simp at h3

/-- Witness for C1 (amended) at the concrete run `cx1`: the saved value 5
is the post-fetch instant of its clock. -/
theorem apply_saved_eq_postfetch_now_witness : (5 : Int) = cx1.clock.afterFetch :=
  apply_saved_eq_postfetch_now cx1 cx1Result 5 rfl (by decide)

/-- C6: per-record validation failures are isolated — dispatching a batch
of N valid records with one invalid record (unrecognized status, or
missing "path" field) anywhere in the middle yields exactly N
status-indicator applications and exactly one skip, and the batch itself
never fails. -/
theorem dispatch_batch_isolated (ds : String) (osa : String → SyncStatus → Bool)
    (pre post : List Json) (bad : Json)
    (hvalid : ∀ item ∈ pre ++ post, validItem item = true)
    (hbad : invalidItem bad = true) :
    ∃ outs, dispatch_batch ds osa (pre ++ bad :: post) = .ok outs
      ∧ outs.countP isApplied = (pre ++ post).length
      ∧ outs.countP isSkipped = 1 := by
  obtain ⟨opre, hdpre, hlpre, hapre⟩ :=
    dispatch_batch_all_valid ds osa pre fun i hi => hvalid i (List.mem_append_left _ hi)
  obtain ⟨opost, hdpost, hlpost, hapost⟩ :=
    dispatch_batch_all_valid ds osa post fun i hi => hvalid i (List.mem_append_right _ hi)
  obtain ⟨e, hpe⟩ := process_item_of_invalid ds osa bad hbad
  have hmid : dispatch_batch ds osa (bad :: post) = .ok (ItemOutcome.skipped e :: opost) := by
    unfold dispatch_batch
    rw [hpe]
    dsimp only
    rw [hdpost]
  have hall := dispatch_batch_ok_append ds osa pre (bad :: post) opre _ hdpre hmid
  refine ⟨_, hall, ?_, ?_⟩
  · rw [List.countP_append, List.countP_cons_of_neg _ _ (by simp [isApplied]),
      List.countP_eq_length.mpr hapre, List.countP_eq_length.mpr hapost,
      hlpre, hlpost, List.length_append]
  · have h1 : opre.countP isSkipped = 0 :=
      List.countP_eq_zero.mpr fun o ho => by
        simp [isSkipped_eq_false_of_applied o (hapre o ho)]
    have h2 : opost.countP isSkipped = 0 :=
      List.countP_eq_zero.mpr fun o ho => by
        simp [isSkipped_eq_false_of_applied o (hapost o ho)]
    rw [List.countP_append, List.countP_cons_of_pos _ _ (by simp [isSkipped]), h1, h2]

/-- A valid synced record for the C6 witness. -/
def v6 : Json :=
  Json.obj [("path", Json.str "ok.txt"), ("status", Json.str "synced"), ("timestamp", Json.str "x")]

/-- A record with an unrecognized status for the C6 witness. -/
def bad6 : Json :=
  Json.obj [("path", Json.str "bad.txt"), ("status", Json.str "bogus")]

/-- Witness for C6: a batch of two valid records around one invalid
record dispatches two applications and one skip. -/
theorem dispatch_batch_isolated_witness :
    ∃ outs, dispatch_batch "/root" (fun _ _ => true) ([v6] ++ bad6 :: [v6]) = .ok outs
      ∧ outs.countP isApplied = ([v6] ++ [v6]).length
      ∧ outs.countP isSkipped = 1 :=
  dispatch_batch_isolated "/root" (fun _ _ => true) [v6] [v6] bad6 (by decide) (by decide)

/-- C8: first-run behavior — when the lock is free, the fetch returns a
nonempty record list and `load_last_synced` finds no checkpoint (`None`),
every fetched record carrying a string "path" and a recognized status is
dispatched to the status indicator, with no condition on its timestamp
field (which may hold anything). -/
theorem apply_first_run_dispatches_all (inp : RunInput) (r : RunResult)
    (j : Json) (tr1 : List Effect) (items : List Json) (fs1 : FileState) (tr2 : List Effect)
    (item : Json) (p sv : String) (st : SyncStatus)
    (hlock : inp.lockHeld = false)
    (hf : fetch_sync_state inp.http = .ok (j, tr1))
    (_hload : load_last_synced inp.fs = .ok (none, fs1, tr2))
    (hiter : pyIter j = .ok items)
    (hrun : apply inp = .ok r)
    (hmem : item ∈ items)
    (hp : pyGetItem item "path" = .ok (.str p))
    (hs : pyGetItem item "status" = .ok (.str sv))
    (hst : syncStatusOfString sv = some st) :
    Effect.indicatorApplied (inp.datasites ++ "/" ++ p) st ∈ r.trace := by
  rcases apply_ok_inversion inp r hrun with ⟨hl2, _⟩ | ⟨j2, tr12, _, hf2, hcase⟩
  · rw [hlock] at hl2; cases hl2
  · rw [hf] at hf2
    cases hf2
    rcases hcase with ⟨htr, _⟩ | ⟨fs1b, tr2b, itemsb, outs, htr, hloadb, hiterb, hdisp, rfl⟩
    · have := pyIter_mem_truthy j items item hiter hmem
      rw [htr] at this; cases this
    · rw [hiter] at hiterb
      cases hiterb
      obtain ⟨o, ho, hpo⟩ := dispatch_batch_mem _ _ _ _ _ hdisp hmem
      rw [process_item_eval inp.datasites inp.osaOk item p sv st hp hs hst] at hpo
      cases hpo
      apply List.mem_append_left
      apply List.mem_append_right
      rw [List.mem_flatten]
      refine ⟨_, List.mem_map_of_mem ItemOutcome.effects ho, ?_⟩
      dsimp only [ItemOutcome.effects]
      exact List.mem_cons_self _ _

/-- An errored record whose timestamp field is not even a string —
irrelevant on a first run, where no timestamp is inspected. -/
def rec8 : Json :=
  Json.obj [("path", Json.str "w.txt"), ("status", Json.str "error"), ("timestamp", Json.num 7)]

/-- First run for the C8 witness: no checkpoint, one fetched record, an
indicator call that fails, and a checkpoint write that fails. -/
def cx8 : RunInput where
  lockHeld := false
  http := HttpResult.response 200 (StateFileContent.ok (Json.arr [rec8]))
  fs := FileState.absent
  clock := ⟨10, 20, by omega⟩
  writeOk := false
  osaOk := fun _ _ => false
  datasites := "/d8"

/-- The run result of `cx8`, computed by evaluation. -/
def cx8Result : RunResult where
  fs := FileState.absent
  trace := [Effect.httpGet, Effect.stateRead, Effect.logged LogKind.stateMissing,
    Effect.stateUnlinked, Effect.indicatorApplied "/d8/w.txt" SyncStatus.errored,
    Effect.logged LogKind.indicatorFailed, Effect.logged LogKind.saveFailed]

/-- Witness for C8 at the concrete first run `cx8`: the fetched record is
dispatched although its timestamp field is not even a string. -/
theorem apply_first_run_dispatches_all_witness :
    Effect.indicatorApplied ("/d8" ++ "/" ++ "w.txt") SyncStatus.errored ∈ cx8Result.trace :=
  apply_first_run_dispatches_all cx8 cx8Result (Json.arr [rec8]) [Effect.httpGet] [rec8]
    FileState.absent [Effect.stateRead, Effect.logged LogKind.stateMissing, Effect.stateUnlinked]
    rec8 "w.txt" "error" SyncStatus.errored rfl rfl rfl rfl rfl
    (List.mem_cons_self _ _) rfl rfl rfl
